import Mathlib

/-!
# Verification of the GLIDE v3.1 physics engine (shallow embedding)

This file embeds the core of the GLIDE v3.1 simulator
(`src/glide_v3_1/core/{tether,motor,edt,gravity,energy,integrator}.py` and
`src/glide_v3_1/utils/config.py`) into Lean 4 and proves the claims of the
specification against it.

Modelling conventions:
* Python floats are modelled as real numbers (`ℝ`); `np.clip`, `max`, `min`
  are modelled by the corresponding real operations.  NaN/infinity behaviour
  (which reals cannot express) is modelled separately with the `NpVal` type,
  mirroring `np.isnan` / `np.nan_to_num` semantics.
* 2-vectors (`np.ndarray` of shape (2,)) are `ℝ × ℝ` with componentwise
  arithmetic; `np.linalg.norm` is `Real.sqrt (x^2 + y^2)`.
* numpy arrays of per-node 2-vectors are total maps `ℕ → ℝ × ℝ`; indices
  beyond `N` are never touched (slices `[1:]` become guards `1 ≤ i ∧ i ≤ N`).
* Sequential Python loops (Gauss–Seidel constraint passes, force
  accumulation) become structural recursions that process indices in the
  same order.
* `raise` is modelled with `Except String`.
-/

noncomputable section

namespace Glide

/-- Planar vector, mirroring a numpy array of shape (2,). -/
abbrev Vec2 := ℝ × ℝ

/-- Dot product of two planar vectors (`np.dot`). -/
def dot2 (a b : Vec2) : ℝ := a.1 * b.1 + a.2 * b.2

/-- Euclidean norm of a planar vector (`np.linalg.norm`). -/
noncomputable def norm2 (v : Vec2) : ℝ := Real.sqrt (v.1 ^ 2 + v.2 ^ 2)

/-- `np.clip(x, lo, hi)`: `lo` if `x < lo`, `hi` if `x > hi`, else `x`. -/
def npClip (x lo hi : ℝ) : ℝ := min (max x lo) hi

/-- Python's `str(s).lower().strip()` as used for mode normalization:
lowercase every character, then drop leading and trailing whitespace
(modelled over the character list so that concrete instances reduce). -/
def lowerStrip (s : String) : String :=
  let cs := (s.toList.map Char.toLower).dropWhile Char.isWhitespace
  String.mk ((cs.reverse.dropWhile Char.isWhitespace).reverse)

/-!
## MotorSystem (`core/motor.py`)
-/

/-- Mutable state of `MotorSystem` (its `__init__` fields). -/
structure MotorSystem where
  R_spool : ℝ
  J_m : ℝ
  tau_max : ℝ
  b_m : ℝ
  eta : ℝ
  omega : ℝ
  torque : ℝ
  energy_used : ℝ
  anchor_length : ℝ
  P_mech : ℝ
  P_elec : ℝ

/-- `MotorSystem.__init__`: construction with zeroed dynamic state. -/
def MotorSystem.init (R_spool J_m tau_max b_m eta : ℝ) : MotorSystem :=
  { R_spool := R_spool, J_m := J_m, tau_max := tau_max, b_m := b_m, eta := eta
    omega := 0, torque := 0, energy_used := 0, anchor_length := 0
    P_mech := 0, P_elec := 0 }

/-- `MotorSystem.update(dt, tension, omega_cmd)`: returns the updated motor
state; the Python return value `v_anchor` is recoverable as
`omega * R_spool` of the new state. -/
def MotorSystem.update (m : MotorSystem) (dt tension omega_cmd : ℝ) :
    MotorSystem :=
  let tau_load := tension * m.R_spool
  let kp : ℝ := 2.0
  let tau_cmd := npClip (kp * (omega_cmd - m.omega)) (-m.tau_max) m.tau_max
  let domega := npClip ((tau_cmd - tau_load - m.b_m * m.omega) / m.J_m)
      (-100.0) 100.0
  let omega := npClip (m.omega + domega * dt) (-50.0) 50.0
  let v_anchor := omega * m.R_spool
  let P_mech := tau_cmd * omega
  let P_elec := if P_mech ≥ 0 then P_mech / m.eta else P_mech * m.eta
  { m with
    omega := omega
    torque := tau_cmd
    anchor_length := m.anchor_length + v_anchor * dt
    P_mech := P_mech
    P_elec := P_elec
    energy_used := m.energy_used + P_elec * dt }

/-- The anchor linear velocity returned by `MotorSystem.update`. -/
def MotorSystem.vAnchor (m : MotorSystem) : ℝ := m.omega * m.R_spool

/-!
## DynamicTether (`core/tether.py`)

Node arrays (`positions`, `velocities`, `_forces`, `_pos_prev`, each of
numpy shape `(N+1, 2)`) are modelled as total maps `ℕ → Vec2`; the code
only ever touches indices `0 .. N`, and numpy slices `[1:]` become guards
`1 ≤ i ∧ i ≤ N`.
-/

/-- State of `DynamicTether`: derived material constants and node arrays. -/
structure DynamicTether where
  N : ℕ
  L0 : ℝ
  segment_length : ℝ
  A : ℝ
  k : ℝ
  rho_l : ℝ
  m_segment : ℝ
  c : ℝ
  vel_decay : ℝ
  positions : ℕ → Vec2
  velocities : ℕ → Vec2
  forces : ℕ → Vec2
  pos_prev : ℕ → Vec2

/-- `DynamicTether.__init__`: derived constants `segment_length = L0/N`,
`A = π (d/2)²`, `k = E·A/segment_length`, `m_segment = ρ_l·segment_length`,
`c = 2√(k·m_segment)·ζ`; nodes start on a vertical line, at rest, with
`_pos_prev` a copy of `positions`. -/
def DynamicTether.init (N : ℕ) (L0 E d rho_l damping_ratio
    numerical_vel_decay_per_s : ℝ) : DynamicTether :=
  let segment_length := L0 / (N : ℝ)
  let A := Real.pi * (d / 2) ^ 2
  let k := E * A / segment_length
  let m_segment := rho_l * segment_length
  { N := N, L0 := L0, segment_length := segment_length, A := A, k := k
    rho_l := rho_l, m_segment := m_segment
    c := 2 * Real.sqrt (k * m_segment) * damping_ratio
    vel_decay := max 0 numerical_vel_decay_per_s
    positions := fun i => (0, -(i : ℝ) * segment_length)
    velocities := fun _ => (0, 0)
    forces := fun _ => (0, 0)
    pos_prev := fun i => (0, -(i : ℝ) * segment_length) }

/-- `DynamicTether.anchor_update`: overwrite node 0's kinematics. -/
def DynamicTether.anchor_update (t : DynamicTether) (anchor_pos anchor_vel :
    Vec2) : DynamicTether :=
  { t with positions := Function.update t.positions 0 anchor_pos
           velocities := Function.update t.velocities 0 anchor_vel }

/-- The body of the `for i in range(self.N)` loop of
`compute_internal_forces`, processing segments `0 .. n-1` in order into a
fresh zero force array. -/
def internalForcesGo (t : DynamicTether) : ℕ → (ℕ → Vec2)
  | 0 => fun _ => (0, 0)
  | n + 1 =>
    let F := internalForcesGo t n
    let p0 := t.positions n
    let p1 := t.positions (n + 1)
    let v0 := t.velocities n
    let v1 := t.velocities (n + 1)
    let r := p1 - p0
    let L := norm2 r
    if L < 1e-12 then F
    else
      let u := (1 / L) • r
      let stretch := L - t.segment_length
      let rel_vel := dot2 (v1 - v0) u
      let Fs := (-(t.k * stretch)) • u - (t.c * rel_vel) • u
      Function.update (Function.update F n (F n + Fs)) (n + 1) (F (n + 1) - Fs)

/-- `DynamicTether.compute_internal_forces`: stores the spring-damper force
array built from segments `0 .. N-1`. -/
def DynamicTether.compute_internal_forces (t : DynamicTether) :
    DynamicTether :=
  { t with forces := internalForcesGo t t.N }

/-- `DynamicTether.add_external_forces`: `self._forces += F_ext`. -/
def DynamicTether.add_external_forces (t : DynamicTether)
    (F_ext : ℕ → Vec2) : DynamicTether :=
  { t with forces := fun i => t.forces i + F_ext i }

/-- `DynamicTether.integrate(dt)`: no-op for `dt ≤ 0`; otherwise saves
`_pos_prev`, then semi-implicit Euler on the non-anchor nodes `1 .. N`
(velocity from `a = forces/m_segment`, then position from the new
velocity), then the optional exponential velocity decay. -/
def DynamicTether.integrate (t : DynamicTether) (dt : ℝ) : DynamicTether :=
  if dt ≤ 0 then t
  else
    let pos_prev := t.positions
    let a := fun i => (1 / t.m_segment) • t.forces i
    let vel1 := fun i => if 1 ≤ i ∧ i ≤ t.N then t.velocities i + dt • a i
      else t.velocities i
    let pos1 := fun i => if 1 ≤ i ∧ i ≤ t.N then t.positions i + dt • vel1 i
      else t.positions i
    let vel2 := if t.vel_decay > 0 then
        fun i => if 1 ≤ i ∧ i ≤ t.N then
          Real.exp (-(t.vel_decay * dt)) • vel1 i else vel1 i
      else vel1
    { t with pos_prev := pos_prev, positions := pos1, velocities := vel2 }

/-- One segment visit of the Gauss-Seidel constraint loop (body of
`for i in range(self.N)` in `enforce_constraints`): the segment touching
the anchor (`i = 0`) corrects only node 1 by the full fractional error;
other segments split the correction between both endpoints. -/
def constraintSegStep (seg : ℝ) (pos : ℕ → Vec2) (i : ℕ) : ℕ → Vec2 :=
  let p0 := pos i
  let p1 := pos (i + 1)
  let delta := p1 - p0
  let dist := norm2 delta
  if dist < 1e-12 then pos
  else
    let diff := (dist - seg) / dist
    if i = 0 then Function.update pos 1 (p1 - diff • delta)
    else
      let corr := (0.5 * diff) • delta
      Function.update (Function.update pos i (p0 + corr)) (i + 1) (p1 - corr)

/-- Sequential sweep of the constraint loop over segments `0 .. n-1`. -/
def constraintSweep (seg : ℝ) (pos : ℕ → Vec2) : ℕ → (ℕ → Vec2)
  | 0 => pos
  | n + 1 => constraintSegStep seg (constraintSweep seg pos n) n

/-- One full constraint iteration: sweep all `N` segments, then restore the
anchor position (`self.positions[0] = self._pos_prev[0]`). -/
def constraintPass (t : DynamicTether) (pos : ℕ → Vec2) : ℕ → Vec2 :=
  Function.update (constraintSweep t.segment_length pos t.N) 0 (t.pos_prev 0)

/-- `iterations` repetitions of `constraintPass`, starting from the current
positions. -/
def constraintIter (t : DynamicTether) : ℕ → (ℕ → Vec2)
  | 0 => t.positions
  | n + 1 => constraintPass t (constraintIter t n)

/-- `DynamicTether.enforce_constraints(dt, iterations)`: no-op for `dt ≤ 0`
or zero iterations; otherwise runs the Gauss-Seidel passes and recomputes
the non-anchor velocities as `(positions - _pos_prev) / dt`. -/
def DynamicTether.enforce_constraints (t : DynamicTether) (dt : ℝ)
    (iterations : ℕ) : DynamicTether :=
  if dt ≤ 0 then t
  else if iterations = 0 then t
  else
    let pos := constraintIter t iterations
    let vel := fun i => if 1 ≤ i ∧ i ≤ t.N then
        (1 / dt) • (pos i - t.pos_prev i) else t.velocities i
    { t with positions := pos, velocities := vel }

/-- `DynamicTether.get_payload_state`: tip node kinematics. -/
def DynamicTether.get_payload_state (t : DynamicTether) : Vec2 × Vec2 :=
  (t.positions t.N, t.velocities t.N)

/-- `DynamicTether.get_tension_profile`: one value per segment,
`k · max(0, dist − segment_length)`. -/
def DynamicTether.get_tension_profile (t : DynamicTether) : List ℝ :=
  (List.range t.N).map fun i =>
    t.k * max 0 (norm2 (t.positions (i + 1) - t.positions i) -
      t.segment_length)

/-- A small concrete tether used to instantiate theorems with hypotheses. -/
def sampleTether : DynamicTether := DynamicTether.init 2 1.0 1.0 1.0 1.0 0.05 0.0

/-!
## ElectrodynamicTether (`core/edt.py`)
-/

/-- 3-vector for the magnetic field. -/
abbrev Vec3 := ℝ × ℝ × ℝ

/-- State of `ElectrodynamicTether`. -/
structure ElectrodynamicTether where
  L : ℝ
  B_vec : Vec3
  R_tether : ℝ
  I_max : ℝ
  mode : String
  I : ℝ
  F : Vec2
  P_loss : ℝ
  P_orbit : ℝ
  P_net : ℝ

/-- `ElectrodynamicTether.__init__`: a length-2 field vector is promoted to
`[0, 0, B[-1]]`; any length other than 2 or 3 raises `ValueError`; the mode
string is lowercased and stripped.  `raise` is modelled as `Except.error`. -/
def ElectrodynamicTether.init (L : ℝ) (B_vec : List ℝ) (R_tether I_max : ℝ)
    (mode : String) : Except String ElectrodynamicTether :=
  if B_vec.length = 2 then
    .ok { L := L, B_vec := (0, 0, B_vec.getD 1 0), R_tether := R_tether
          I_max := I_max, mode := lowerStrip mode
          I := 0, F := (0, 0), P_loss := 0, P_orbit := 0, P_net := 0 }
  else if B_vec.length ≠ 3 then .error "B_vec must be length 2 or 3"
  else
    .ok { L := L, B_vec := (B_vec.getD 0 0, B_vec.getD 1 0, B_vec.getD 2 0)
          R_tether := R_tether, I_max := I_max, mode := lowerStrip mode
          I := 0, F := (0, 0), P_loss := 0, P_orbit := 0, P_net := 0 }

/-- `ElectrodynamicTether.update`: zero everything in "off" mode; otherwise
clip the commanded fraction, zero force with only resistive loss when the
tether vector is degenerate, and otherwise pick the force sign from the
candidate power (`boost` keeps it nonnegative, anything else nonpositive);
power bookkeeping per mode follows lines 99-105. -/
def ElectrodynamicTether.update (e : ElectrodynamicTether)
    (node_pos payload_pos velocity_vec : Vec2) (current_cmd : ℝ) :
    ElectrodynamicTether :=
  if e.mode = "off" then
    { e with I := 0, F := (0, 0), P_loss := 0, P_orbit := 0, P_net := 0 }
  else
    let I := npClip current_cmd (-1) 1 * e.I_max
    let L_vec2 := payload_pos - node_pos
    let L_norm := norm2 L_vec2
    if L_norm < 1e-9 then
      { e with I := I, F := (0, 0), P_loss := I ^ 2 * e.R_tether
               P_orbit := 0, P_net := I ^ 2 * e.R_tether }
    else
      let L_hat := (1 / L_norm) • L_vec2
      let Bz := e.B_vec.2.2
      let F_mag := |I| * L_norm * |Bz|
      let perp_L : Vec2 := (-L_hat.2, L_hat.1)
      let F_candidate := F_mag • perp_L
      let P_candidate := dot2 F_candidate velocity_vec
      let sgn : ℝ :=
        if norm2 velocity_vec > 1e-9 then
          if e.mode = "boost" then (if P_candidate ≥ 0 then 1 else -1)
          else (if P_candidate ≥ 0 then -1 else 1)
        else if e.mode = "boost" then 1 else -1
      let F := sgn • F_candidate
      let P_loss := I ^ 2 * e.R_tether
      let P_orbit := dot2 F velocity_vec
      let P_net := if e.mode = "boost" then P_loss + max 0 P_orbit
        else P_loss + min 0 P_orbit
      { e with I := I, F := F, P_loss := P_loss, P_orbit := P_orbit
               P_net := P_net }

/-- `ElectrodynamicTether.get_power`. -/
def ElectrodynamicTether.get_power (e : ElectrodynamicTether) : ℝ := e.P_net

/-- `ElectrodynamicTether.set_mode`. -/
def ElectrodynamicTether.set_mode (e : ElectrodynamicTether) (mode : String) :
    ElectrodynamicTether := { e with mode := lowerStrip mode }

/-- A concrete drag-mode EDT whose harvested power exceeds its resistive
loss (strong out-of-plane field, small resistance). -/
def edtHarvest : ElectrodynamicTether :=
  { L := 100, B_vec := (0, 0, 4), R_tether := 1, I_max := 1, mode := "drag"
    I := 0, F := (0, 0), P_loss := 0, P_orbit := 0, P_net := 0 }

/-!
## GravityField (`core/gravity.py`)
-/

/-- State of `GravityField`. -/
structure GravityField where
  mu : ℝ
  g0 : ℝ
  R_earth : ℝ
  mode : String

/-- `GravityField.__init__` (mode lowercased and stripped). -/
def GravityField.init (mu g0 R_earth : ℝ) (mode : String) : GravityField :=
  { mu := mu, g0 := g0, R_earth := R_earth, mode := lowerStrip mode }

/-- `GravityField.get_acceleration`: constant `[0, -g0]` in local mode;
two-body `-μ·r/|r|³` about the origin (zero inside unit radius) otherwise. -/
def GravityField.get_acceleration (g : GravityField) (position : Vec2) :
    Vec2 :=
  if g.mode = "local" then (0, -g.g0)
  else
    let r2 := dot2 position position
    if r2 < 1 then (0, 0)
    else (-g.mu / Real.sqrt r2 ^ 3) • position

/-- `GravityField.get_potential`: `g0·y` in local mode; `-μ/|r|` (zero
inside unit radius) otherwise. -/
def GravityField.get_potential (g : GravityField) (position : Vec2) : ℝ :=
  if g.mode = "local" then g.g0 * position.2
  else
    let r2 := dot2 position position
    if r2 < 1 then 0 else -g.mu / Real.sqrt r2

/-!
## NaN sanitization (`core/integrator.py`, lines 132-134)

Real numbers have no NaN or infinity, so the float-level behaviour of the
sanitization block is modelled separately: `NpVal` is a float as numpy
classifies it (finite / NaN / ±∞), an array is the list of its entries, and
`np.isnan` / `np.nan_to_num` (with default arguments: NaN ↦ 0.0,
`±inf ↦ ±1.7976931348623157e308`) act on it entrywise.
-/

/-- A numpy float value as classified by `np.isnan` / `np.isinf`. -/
inductive NpVal where
  | finite : ℝ → NpVal
  | nan : NpVal
  | pinf : NpVal
  | ninf : NpVal

/-- `np.isnan` on one entry. -/
def NpVal.isnan : NpVal → Bool
  | .nan => true
  | _ => false

/-- Whether an entry is finite (neither NaN nor infinite). -/
def NpVal.isFinite : NpVal → Bool
  | .finite _ => true
  | _ => false

/-- The largest finite IEEE double, `np.nan_to_num`'s default replacement
for `+inf`. -/
def floatMax : ℝ := 1.7976931348623157e308

/-- `np.nan_to_num` with default arguments on one entry: NaN ↦ 0,
`+inf ↦ floatMax`, `-inf ↦ -floatMax`, finite values unchanged. -/
def nanToNum : NpVal → NpVal
  | .nan => .finite 0
  | .pinf => .finite floatMax
  | .ninf => .finite (-floatMax)
  | .finite x => .finite x

/-- Lines 132-134 of `GLIDEIntegrator.step`: if any entry of positions or
velocities is NaN, replace both arrays by their `np.nan_to_num`; otherwise
leave both untouched. -/
def sanitizeSubstep (positions velocities : List NpVal) :
    List NpVal × List NpVal :=
  if positions.any NpVal.isnan || velocities.any NpVal.isnan then
    (positions.map nanToNum, velocities.map nanToNum)
  else (positions, velocities)

/-!
## EnergyTracker (`core/energy.py`)

Python lists append at the end; the newest sample is the last element.
The console print on lines 80-84 is I/O and is represented only by its
timer update (`_t_last_print`).
-/

/-- State of `EnergyTracker`. -/
structure EnergyTracker where
  time : List ℝ
  E_kin : List ℝ
  E_elastic : List ℝ
  E_grav : List ℝ
  E_batt : List ℝ
  E_total : List ℝ
  SoC : List ℝ
  E_batt_capacity : ℝ
  E_batt_now : ℝ
  log_interval_s : ℝ
  t_last_print : ℝ

/-- `EnergyTracker.__init__`: empty ledger, battery starting full. -/
def EnergyTracker.init (battery_capacity_J log_interval_s : ℝ) :
    EnergyTracker :=
  { time := [], E_kin := [], E_elastic := [], E_grav := [], E_batt := []
    E_total := [], SoC := []
    E_batt_capacity := battery_capacity_J, E_batt_now := battery_capacity_J
    log_interval_s := max 0 log_interval_s, t_last_print := -1e9 }

/-- `EnergyTracker.update(dt, tether, motor, edt, gravity)`: samples one
ledger row; the battery changes by `-(P_motor + P_edt)·dt` and is clipped
to `[0, capacity]`. -/
def EnergyTracker.update (tr : EnergyTracker) (dt : ℝ)
    (tether : DynamicTether) (motor : MotorSystem)
    (edt : ElectrodynamicTether) (gravity : Option GravityField) :
    EnergyTracker :=
  let t_next := match tr.time.getLast? with
    | none => 0
    | some tl => tl + dt
  let kinetic := 0.5 * tether.m_segment *
    ∑ i in Finset.Icc 1 tether.N, dot2 (tether.velocities i)
      (tether.velocities i)
  let elastic := ∑ i in Finset.range tether.N,
    0.5 * tether.k * (norm2 (tether.positions (i + 1) - tether.positions i) -
      tether.segment_length) ^ 2
  let grav := match gravity with
    | none => 0
    | some g =>
      if g.mode = "local" then
        ∑ i in Finset.Icc 1 tether.N,
          tether.m_segment * g.g0 *
            ((tether.positions i).2 - (tether.positions 0).2)
      else
        ∑ i in Finset.Icc 1 tether.N,
          tether.m_segment * (g.get_potential (tether.positions i) -
            g.get_potential (tether.positions 0))
  let P_motor := motor.P_elec
  let P_edt := edt.get_power
  let P_total := P_motor + P_edt
  let dE_batt := -P_total * dt
  let E_batt_now := npClip (tr.E_batt_now + dE_batt) 0 tr.E_batt_capacity
  let E_total := kinetic + elastic + grav + E_batt_now
  let soc := if tr.E_batt_capacity > 0 then E_batt_now / tr.E_batt_capacity
    else 0
  { tr with
    time := tr.time ++ [t_next]
    E_kin := tr.E_kin ++ [kinetic]
    E_elastic := tr.E_elastic ++ [elastic]
    E_grav := tr.E_grav ++ [grav]
    E_batt := tr.E_batt ++ [E_batt_now]
    E_total := tr.E_total ++ [E_total]
    SoC := tr.SoC ++ [soc]
    E_batt_now := E_batt_now
    t_last_print := if tr.log_interval_s > 0 ∧
        t_next - tr.t_last_print ≥ tr.log_interval_s then t_next
      else tr.t_last_print }

/-- The final sample exposed by `EnergyTracker.summary`. -/
structure EnergySummary where
  E_kin : ℝ
  E_elastic : ℝ
  E_grav : ℝ
  E_batt : ℝ
  E_total : ℝ
  SoC : ℝ

/-- `EnergyTracker.summary`: the empty dict (`none`) when no sample was
ever taken, otherwise the last entry of each ledger column (the columns
always have equal length, so the `getD 0` defaults are never taken for a
nonempty ledger). -/
def EnergyTracker.summary (tr : EnergyTracker) : Option EnergySummary :=
  if tr.time.isEmpty then none
  else some
    { E_kin := tr.E_kin.getLast?.getD 0
      E_elastic := tr.E_elastic.getLast?.getD 0
      E_grav := tr.E_grav.getLast?.getD 0
      E_batt := tr.E_batt.getLast?.getD 0
      E_total := tr.E_total.getLast?.getD 0
      SoC := tr.SoC.getLast?.getD 0 }

/-- `n` consecutive `EnergyTracker.update` calls with constant inputs. -/
def EnergyTracker.updateIter (tr : EnergyTracker) (dt : ℝ)
    (tether : DynamicTether) (motor : MotorSystem)
    (edt : ElectrodynamicTether) (gravity : Option GravityField) :
    ℕ → EnergyTracker
  | 0 => tr
  | n + 1 => (tr.updateIter dt tether motor edt gravity n).update dt tether
      motor edt gravity

/-- A motor state with positive electrical draw, for instantiations. -/
def sampleMotorDraw : MotorSystem :=
  { MotorSystem.init 0.25 0.08 15.0 0.02 0.87 with P_elec := 2 }

/-- An idle EDT state reporting one watt of net power, for instantiations. -/
def sampleEDT : ElectrodynamicTether :=
  { L := 100, B_vec := (0, 0, 3.1e-5), R_tether := 50, I_max := 2.5
    mode := "off", I := 0, F := (0, 0), P_loss := 0, P_orbit := 0
    P_net := 1 }

/-!
## Configuration (`utils/config.py`)
-/

/-- The flat configuration mapping built by `load_config`. -/
structure Config where
  dt : ℝ
  N : ℕ
  L0 : ℝ
  E : ℝ
  d : ℝ
  rho_l : ℝ
  tether_damping_ratio : ℝ
  tether_max_substep_dt : ℝ
  constraint_iterations : ℕ
  numerical_vel_decay_per_s : ℝ
  R_spool : ℝ
  J_m : ℝ
  tau_max : ℝ
  b_m : ℝ
  eta : ℝ
  gravity_mode : String
  local_g : ℝ
  mu : ℝ
  R_earth : ℝ
  EDT_L : ℝ
  B_vec : List ℝ
  EDT_R : ℝ
  EDT_Imax : ℝ
  EDT_mode : String
  battery_capacity_J : ℝ
  log_interval : ℝ
  save_energy_csv : Bool
  velocity_limit : ℝ

/-- The base configuration of `load_config` before preset overrides. -/
def baseConfig : Config :=
  { dt := 0.01, N := 25, L0 := 200.0, E := 30e9, d := 0.005, rho_l := 1.5
    tether_damping_ratio := 0.05, tether_max_substep_dt := 0.005
    constraint_iterations := 3, numerical_vel_decay_per_s := 0.0
    R_spool := 0.25, J_m := 0.08, tau_max := 15.0, b_m := 0.02, eta := 0.87
    gravity_mode := "local", local_g := 9.80665, mu := 3.986004418e14
    R_earth := 6.371e6, EDT_L := 100.0, B_vec := [0.0, 0.0, 3.1e-5]
    EDT_R := 50.0, EDT_Imax := 2.5, EDT_mode := "off"
    battery_capacity_J := 5e5, log_interval := 1.0, save_energy_csv := true
    velocity_limit := 0.0 }

/-- `load_config(mode)`: lowercases and strips the preset name, applies the
matching preset's overrides to the base configuration, and raises
`ValueError` (modelled as `Except.error`) for any other name. -/
def load_config (mode : String) : Except String Config :=
  let m := lowerStrip mode
  if m = "orbital_test" then
    .ok { baseConfig with
          gravity_mode := "local"
          local_g := 8.70
          L0 := 300.0
          N := 40
          E := 40e9
          rho_l := 1.8
          dt := 0.05
          tether_max_substep_dt := 0.005
          constraint_iterations := 4
          EDT_mode := "drag"
          battery_capacity_J := 1e6 }
  else if m = "engineering" then
    .ok { baseConfig with
          L0 := 250.0
          N := 25
          E := 5e9
          rho_l := 1.6
          EDT_mode := "boost"
          EDT_Imax := 0.5
          tau_max := 8.0
          battery_capacity_J := 2e6
          dt := 0.005
          tether_max_substep_dt := 0.005
          constraint_iterations := 3 }
  else if m = "local_demo" then
    .ok { baseConfig with
          L0 := 100.0
          N := 15
          gravity_mode := "local"
          local_g := 9.80665
          EDT_mode := "off"
          dt := 0.005
          tether_max_substep_dt := 0.005
          constraint_iterations := 2 }
  else .error ("Unknown configuration mode: " ++ m)

/-!
## GLIDEIntegrator sub-step planning (`core/integrator.py`, lines 110-113)
-/

/-- Lines 110-113 of `GLIDEIntegrator.step`: the number of tether sub-steps.
`dt_sub = min(dt, max_substep_dt) if max_substep_dt > 0 else dt`;
`n_sub = max(1, int(np.ceil(dt / dt_sub)))`. -/
noncomputable def substepCount (dt max_substep_dt : ℝ) : ℕ :=
  let dt_sub := if max_substep_dt > 0 then min dt max_substep_dt else dt
  max 1 ⌈dt / dt_sub⌉₊

/-- Line 113 of `GLIDEIntegrator.step`: `dt_sub = dt / n_sub`. -/
noncomputable def substepSize (dt max_substep_dt : ℝ) : ℝ :=
  dt / (substepCount dt max_substep_dt : ℝ)

/-!
## GLIDEIntegrator (`core/integrator.py`)
-/

/-- State of `GLIDEIntegrator` (configuration snapshot plus owned
subsystems). -/
structure GLIDEIntegrator where
  dt : ℝ
  anchor_pos : Vec2
  anchor_vel : Vec2
  gravity : GravityField
  tether : DynamicTether
  motor : MotorSystem
  edt : ElectrodynamicTether
  energy : EnergyTracker
  constraint_iterations : ℕ
  max_substep_dt : ℝ
  velocity_limit : ℝ
  step_count : ℕ

/-- One iteration of the sub-step loop of `GLIDEIntegrator.step`
(lines 115-134): advance the anchor, re-apply the boundary condition,
recompute internal forces, add gravity (non-anchor nodes) and the EDT force
(payload node, also updating the EDT state), integrate, enforce
constraints, and clamp over-limit node velocities.  The NaN sanitization of
lines 132-134 is a no-op on real numbers (`np.isnan` is identically false);
its float-level behaviour is modelled by `sanitizeSubstep`. -/
def GLIDEIntegrator.substep (g : GLIDEIntegrator)
    (current_cmd dt_sub : ℝ) : GLIDEIntegrator :=
  let anchor_pos := g.anchor_pos + dt_sub • g.anchor_vel
  let t1 := g.tether.anchor_update anchor_pos g.anchor_vel
  let t2 := t1.compute_internal_forces
  let payload := t2.get_payload_state
  let edt := g.edt.update anchor_pos payload.1 payload.2 current_cmd
  let F_ext := fun i =>
    (if 1 ≤ i ∧ i ≤ t2.N then
      t2.m_segment • g.gravity.get_acceleration (t2.positions i)
    else (0, 0)) + (if i = t2.N then edt.F else (0, 0))
  let t3 := t2.add_external_forces F_ext
  let t4 := t3.integrate dt_sub
  let t5 := t4.enforce_constraints dt_sub g.constraint_iterations
  let t6 := if g.velocity_limit > 0 then
      { t5 with velocities := fun i =>
          if norm2 (t5.velocities i) > g.velocity_limit then
            (g.velocity_limit / norm2 (t5.velocities i)) • t5.velocities i
          else t5.velocities i }
    else t5
  { g with anchor_pos := anchor_pos, tether := t6, edt := edt }

/-- `n` iterations of the sub-step loop. -/
def GLIDEIntegrator.substepN (g : GLIDEIntegrator)
    (current_cmd dt_sub : ℝ) : ℕ → GLIDEIntegrator
  | 0 => g
  | n + 1 => (g.substepN current_cmd dt_sub n).substep current_cmd dt_sub

/-- `GLIDEIntegrator.step(omega_cmd, current_cmd)`: boundary condition,
internal forces, motor update from the tip tension (`tensions[-1]`, or 0
for an empty profile), sub-step loop, then one energy sample. -/
def GLIDEIntegrator.step (g : GLIDEIntegrator)
    (omega_cmd current_cmd : ℝ) : GLIDEIntegrator :=
  let t1 := g.tether.anchor_update g.anchor_pos g.anchor_vel
  let t2 := t1.compute_internal_forces
  let T_tip := t2.get_tension_profile.getLast?.getD 0
  let motor := g.motor.update g.dt T_tip omega_cmd
  let g1 := { g with
              tether := t2
              motor := motor
              anchor_vel := ((0 : ℝ), motor.vAnchor) }
  let n_sub := substepCount g.dt g.max_substep_dt
  let dt_sub := substepSize g.dt g.max_substep_dt
  let g2 := g1.substepN current_cmd dt_sub n_sub
  let energy := g2.energy.update g.dt g2.tether g2.motor g2.edt
    (some g2.gravity)
  { g2 with energy := energy, step_count := g2.step_count + 1 }

/-- The `for i in range(steps)` loop of `GLIDEIntegrator.run`: step `n`
evaluates the optional command profiles at `t = n · dt` (absent profiles
command zero). -/
def GLIDEIntegrator.runLoop (g0 : GLIDEIntegrator)
    (omega_profile current_profile : Option (ℝ → ℝ)) :
    ℕ → GLIDEIntegrator
  | 0 => g0
  | n + 1 =>
    let g := g0.runLoop omega_profile current_profile n
    let t := (n : ℝ) * g.dt
    g.step (match omega_profile with | some f => f t | none => 0)
      (match current_profile with | some f => f t | none => 0)

/-- `GLIDEIntegrator.run(duration, omega_profile, current_profile)`:
executes `int(duration / dt)` steps (`⌊·⌋₊` matches Python's truncation
composed with `range`'s clamping at zero) and returns the final energy
summary; the final integrator state is returned alongside it. -/
noncomputable def GLIDEIntegrator.run (g : GLIDEIntegrator) (duration : ℝ)
    (omega_profile current_profile : Option (ℝ → ℝ)) :
    GLIDEIntegrator × Option EnergySummary :=
  let final := g.runLoop omega_profile current_profile ⌊duration / g.dt⌋₊
  (final, final.energy.summary)

/-- A concrete integrator assembled from the sample subsystem states, used
to instantiate theorems with hypotheses. -/
def sampleIntegrator : GLIDEIntegrator :=
  { dt := 0.01
    anchor_pos := (0, 0)
    anchor_vel := (0, 0)
    gravity := GravityField.init 3.986004418e14 9.80665 6.371e6 "local"
    tether := sampleTether
    motor := MotorSystem.init 0.25 0.08 15.0 0.02 0.87
    edt := sampleEDT
    energy := EnergyTracker.init 5e5 1.0
    constraint_iterations := 3
    max_substep_dt := 0.005
    velocity_limit := 0.0
    step_count := 0 }

end Glide

namespace Glide

/-- C4 (auxiliary): the updated electrical power as a function of mechanical
power, as assigned by `MotorSystem.update` lines 54-57. -/
theorem MotorSystem.update_P_elec (m : MotorSystem) (dt tension omega_cmd : ℝ) :
    (m.update dt tension omega_cmd).P_elec =
      (if (m.update dt tension omega_cmd).P_mech ≥ 0 then
        (m.update dt tension omega_cmd).P_mech / m.eta
      else (m.update dt tension omega_cmd).P_mech * m.eta) := by
  simp only [MotorSystem.update]

end Glide

/-- C4: for every `MotorSystem.update` call with efficiency `0 < eta < 1`, the
electrical power equals mechanical power divided by `eta` when the mechanical
power is nonnegative and mechanical power multiplied by `eta` when negative;
hence for positive mechanical power the electrical draw strictly exceeds the
mechanical power, and for negative mechanical power the returned electrical
power is strictly smaller in magnitude than the mechanical power. -/
theorem Glide.motor_efficiency_asymmetry (m : Glide.MotorSystem)
    (dt tension omega_cmd : ℝ) (h0 : 0 < m.eta) (h1 : m.eta < 1) :
    ((m.update dt tension omega_cmd).P_elec =
      if (m.update dt tension omega_cmd).P_mech ≥ 0 then
        (m.update dt tension omega_cmd).P_mech / m.eta
      else (m.update dt tension omega_cmd).P_mech * m.eta) ∧
    (0 < (m.update dt tension omega_cmd).P_mech →
      (m.update dt tension omega_cmd).P_mech <
        (m.update dt tension omega_cmd).P_elec) ∧
    ((m.update dt tension omega_cmd).P_mech < 0 →
      |(m.update dt tension omega_cmd).P_elec| <
        |(m.update dt tension omega_cmd).P_mech|) := by
  set m' := m.update dt tension omega_cmd with hm'
  have hpe := Glide.MotorSystem.update_P_elec m dt tension omega_cmd
  rw [← hm'] at hpe
  refine ⟨hpe, ?_, ?_⟩
  · intro hpos
    rw [hpe, if_pos (le_of_lt hpos)]
    calc m'.P_mech = m'.P_mech / 1 := by ring
    _ < m'.P_mech / m.eta := by
        exact div_lt_div_of_pos_left hpos h0 h1
  · intro hneg
    rw [hpe, if_neg (not_le.mpr hneg)]
    rw [abs_mul, abs_of_pos h0]
    have hlt : |m'.P_mech| * m.eta < |m'.P_mech| * 1 := by
      exact mul_lt_mul_of_pos_left h1 (abs_pos.mpr (ne_of_lt hneg))
    simpa using hlt

/-- Witness for C4: a concrete motor (`eta = 0.87`) with a positive command
from rest, instantiating `motor_efficiency_asymmetry`. -/
theorem Glide.motor_efficiency_asymmetry_witness :
    (0 : ℝ) < 0.87 ∧ (0.87 : ℝ) < 1 ∧
    (((Glide.MotorSystem.init 0.25 0.08 15.0 0.02 0.87).update 0.01 0 1).P_elec =
      if ((Glide.MotorSystem.init 0.25 0.08 15.0 0.02 0.87).update 0.01 0 1).P_mech ≥ 0 then
        ((Glide.MotorSystem.init 0.25 0.08 15.0 0.02 0.87).update 0.01 0 1).P_mech / 0.87
      else ((Glide.MotorSystem.init 0.25 0.08 15.0 0.02 0.87).update 0.01 0 1).P_mech * 0.87) := by
  have h := Glide.motor_efficiency_asymmetry
    (Glide.MotorSystem.init 0.25 0.08 15.0 0.02 0.87) 0.01 0 1
    (by norm_num [Glide.MotorSystem.init]) (by norm_num [Glide.MotorSystem.init])
  exact ⟨by norm_num, by norm_num, by simpa [Glide.MotorSystem.init] using h.1⟩

/-- C5: for every sequence of `EnergyTracker.update` calls with battery
capacity > 0 and `dt > 0`: the battery energy after each call lies in
`[0, capacity]` and the recorded state of charge in `[0, 1]`; each call
changes the battery by `-(motor electrical power + EDT net power)·dt`
before clamping; starting from the full battery of `__init__`, under
constant positive total power the battery is non-increasing and reaches
exactly 0 (never negative), and under constant negative total power it
stays clamped at capacity (state of charge exactly 1). -/
theorem Glide.battery_ledger_contract (cap lg dt : ℝ)
    (teth : Glide.DynamicTether) (mot : Glide.MotorSystem)
    (edt : Glide.ElectrodynamicTether) (grav : Option Glide.GravityField)
    (hcap : 0 < cap) (hdt : 0 < dt) :
    (∀ tr : Glide.EnergyTracker, tr.E_batt_capacity = cap →
      0 ≤ (tr.update dt teth mot edt grav).E_batt_now ∧
      (tr.update dt teth mot edt grav).E_batt_now ≤ cap ∧
      ((tr.update dt teth mot edt grav).SoC).getLast? =
        some ((tr.update dt teth mot edt grav).E_batt_now / cap) ∧
      0 ≤ (tr.update dt teth mot edt grav).E_batt_now / cap ∧
      (tr.update dt teth mot edt grav).E_batt_now / cap ≤ 1) ∧
    (∀ tr : Glide.EnergyTracker,
      (tr.update dt teth mot edt grav).E_batt_now =
        Glide.npClip (tr.E_batt_now - (mot.P_elec + edt.get_power) * dt) 0
          tr.E_batt_capacity) ∧
    (0 < mot.P_elec + edt.get_power →
      (∀ n, ((Glide.EnergyTracker.init cap lg).updateIter dt teth mot edt
          grav (n + 1)).E_batt_now ≤
        ((Glide.EnergyTracker.init cap lg).updateIter dt teth mot edt
          grav n).E_batt_now) ∧
      (∃ n, ∀ m, n ≤ m →
        ((Glide.EnergyTracker.init cap lg).updateIter dt teth mot edt
          grav m).E_batt_now = 0)) ∧
    (mot.P_elec + edt.get_power < 0 →
      ∀ n, ((Glide.EnergyTracker.init cap lg).updateIter dt teth mot edt
          grav n).E_batt_now = cap ∧
        ((Glide.EnergyTracker.init cap lg).updateIter dt teth mot edt
          grav n).E_batt_now / cap = 1) := by
  have hstep : ∀ tr : Glide.EnergyTracker,
      (tr.update dt teth mot edt grav).E_batt_now =
        Glide.npClip (tr.E_batt_now - (mot.P_elec + edt.get_power) * dt) 0
          tr.E_batt_capacity := by
    intro tr
    simp only [Glide.EnergyTracker.update]
    exact congrArg (fun x => Glide.npClip x 0 tr.E_batt_capacity) (by ring)
  have hcappres : ∀ tr : Glide.EnergyTracker,
      (tr.update dt teth mot edt grav).E_batt_capacity =
        tr.E_batt_capacity := fun _ => rfl
  have hiter_cap : ∀ n, ((Glide.EnergyTracker.init cap lg).updateIter dt
      teth mot edt grav n).E_batt_capacity = cap := by
    intro n
    induction n with
    | zero => rfl
    | succ n ih =>
      rw [Glide.EnergyTracker.updateIter, hcappres, ih]
  refine ⟨?_, hstep, ?_, ?_⟩
  · intro tr hc
    have h0 : 0 ≤ (tr.update dt teth mot edt grav).E_batt_now := by
      rw [hstep tr, Glide.npClip]
      exact le_min (le_max_right _ 0) (hc ▸ hcap.le)
    have h1 : (tr.update dt teth mot edt grav).E_batt_now ≤ cap := by
      rw [hstep tr, Glide.npClip, ← hc]
      exact min_le_right _ _
    refine ⟨h0, h1, ?_, div_nonneg h0 hcap.le, (div_le_one hcap).mpr h1⟩
    have hpos : tr.E_batt_capacity > 0 := hc ▸ hcap
    simp only [Glide.EnergyTracker.update, hpos, if_true,
      List.getLast?_concat, hc]
    rw [if_pos hcap]
  · intro hP
    have hδ : 0 < (mot.P_elec + edt.get_power) * dt := mul_pos hP hdt
    have hform : ∀ n, ((Glide.EnergyTracker.init cap lg).updateIter dt teth
        mot edt grav n).E_batt_now =
          max 0 (cap - n * ((mot.P_elec + edt.get_power) * dt)) := by
      intro n
      induction n with
      | zero =>
        simp only [Glide.EnergyTracker.updateIter, Glide.EnergyTracker.init,
          Nat.cast_zero, zero_mul, sub_zero]
        exact (max_eq_right hcap.le).symm
      | succ n ih =>
        rw [Glide.EnergyTracker.updateIter, hstep, ih, hiter_cap n]
        push_cast
        rcases le_or_lt 0 (cap - n * ((mot.P_elec + edt.get_power) * dt))
          with hpos | hneg
        · rw [max_eq_right hpos, Glide.npClip]
          have hnd : 0 ≤ (n : ℝ) * ((mot.P_elec + edt.get_power) * dt) :=
            mul_nonneg (Nat.cast_nonneg n) hδ.le
          rw [min_eq_left (max_le (by linarith) hcap.le), max_comm]
          ring_nf
        · rw [max_eq_left hneg.le, Glide.npClip]
          rw [max_eq_right (by linarith), min_eq_left hcap.le]
          exact (max_eq_left (by nlinarith)).symm
    constructor
    · intro n
      rw [hform (n + 1), hform n]
      refine max_le_max le_rfl (sub_le_sub_left ?_ cap)
      have : ((n : ℝ)) ≤ ((n : ℝ) + 1) := by linarith
      have := mul_le_mul_of_nonneg_right this hδ.le
      push_cast
      linarith
    · obtain ⟨n, hn⟩ := exists_nat_ge (cap / ((mot.P_elec + edt.get_power) * dt))
      refine ⟨n, fun m hm => ?_⟩
      rw [hform m]
      have h1 : cap ≤ n * ((mot.P_elec + edt.get_power) * dt) :=
        (div_le_iff₀ hδ).mp hn
      have h2 : (n : ℝ) * ((mot.P_elec + edt.get_power) * dt) ≤
          m * ((mot.P_elec + edt.get_power) * dt) :=
        mul_le_mul_of_nonneg_right (Nat.cast_le.mpr hm) hδ.le
      exact max_eq_left (by linarith)
  · intro hP
    have hδ : (mot.P_elec + edt.get_power) * dt < 0 :=
      mul_neg_of_neg_of_pos hP hdt
    have hpin : ∀ n, ((Glide.EnergyTracker.init cap lg).updateIter dt teth
        mot edt grav n).E_batt_now = cap := by
      intro n
      induction n with
      | zero => rfl
      | succ n ih =>
        rw [Glide.EnergyTracker.updateIter, hstep, ih, hiter_cap n,
          Glide.npClip]
        rw [max_eq_left (by linarith), min_eq_right (by linarith)]
    exact fun n => ⟨hpin n, by rw [hpin n]; exact div_self hcap.ne'⟩

/-- Witness for C5: capacity 1, `dt = 1`, a motor drawing 2 W and an EDT
netting 1 W — the battery drains monotonically to exactly zero. -/
theorem Glide.battery_ledger_contract_witness :
    (0 : ℝ) < 1 ∧ (0 : ℝ) < 1 ∧
    0 < Glide.sampleMotorDraw.P_elec + Glide.sampleEDT.get_power ∧
    (∃ n, ∀ m, n ≤ m →
      ((Glide.EnergyTracker.init 1 1).updateIter 1 Glide.sampleTether
        Glide.sampleMotorDraw Glide.sampleEDT none m).E_batt_now = 0) := by
  have hP : 0 < Glide.sampleMotorDraw.P_elec + Glide.sampleEDT.get_power := by
    norm_num [Glide.sampleMotorDraw, Glide.sampleEDT, Glide.MotorSystem.init,
      Glide.ElectrodynamicTether.get_power]
  have h := Glide.battery_ledger_contract 1 1 1 Glide.sampleTether
    Glide.sampleMotorDraw Glide.sampleEDT none (by norm_num) (by norm_num)
  exact ⟨by norm_num, by norm_num, hP, (h.2.2.1 hP).2⟩

/-- C6: for every `GLIDEIntegrator.step` call with control step `dt > 0` and
configured maximum sub-step duration `max_substep_dt > 0`, the number of
sub-steps equals `⌈dt / max_substep_dt⌉` and each sub-step uses size
`dt / count`. -/
theorem Glide.substep_count_ceil (dt max_substep_dt : ℝ) (hdt : 0 < dt)
    (hmax : 0 < max_substep_dt) :
    Glide.substepCount dt max_substep_dt = ⌈dt / max_substep_dt⌉₊ ∧
    Glide.substepSize dt max_substep_dt =
      dt / (⌈dt / max_substep_dt⌉₊ : ℝ) := by
  have hcount : Glide.substepCount dt max_substep_dt = ⌈dt / max_substep_dt⌉₊ := by
    unfold Glide.substepCount
    rw [if_pos hmax]
    simp only
    rcases le_total dt max_substep_dt with hle | hle
    · rw [min_eq_left hle, div_self (ne_of_gt hdt)]
      have hrpos : 0 < dt / max_substep_dt := div_pos hdt hmax
      have hrle : dt / max_substep_dt ≤ 1 := (div_le_one hmax).mpr hle
      have hone : ⌈dt / max_substep_dt⌉₊ = 1 := by
        refine le_antisymm ?_ ?_
        · exact Nat.ceil_le.mpr (by simpa using hrle)
        · exact Nat.one_le_ceil_iff.mpr hrpos
      simp [hone]
    · rw [min_eq_right hle]
      have h1 : (1 : ℝ) ≤ dt / max_substep_dt := (one_le_div hmax).mpr hle
      have hge : 1 ≤ ⌈dt / max_substep_dt⌉₊ := Nat.one_le_ceil_iff.mpr (by linarith)
      omega
  exact ⟨hcount, by rw [Glide.substepSize, hcount]⟩

/-- Witness for C6: with `dt = 0.05` and `max_substep_dt = 0.005` the step
count is `⌈10⌉ = 10` and the sub-step size is `dt / 10`. -/
theorem Glide.substep_count_ceil_witness :
    Glide.substepCount 0.05 0.005 = ⌈(0.05 : ℝ) / 0.005⌉₊ ∧
    Glide.substepSize 0.05 0.005 = 0.05 / ((⌈(0.05 : ℝ) / 0.005⌉₊ : ℕ) : ℝ) :=
  Glide.substep_count_ceil 0.05 0.005 (by norm_num) (by norm_num)

/-- C1: for every `DynamicTether.enforce_constraints` call with `dt > 0` and
at least one iteration, if node 0's position at entry equals the stored
previous position (as arranged by the preceding `integrate`), then the
anchor's position is identical before and after the call, and every
non-anchor node's velocity on return equals (corrected position − stored
previous position) / dt. -/
theorem Glide.tether_constraints_frame (t : Glide.DynamicTether)
    (dt : ℝ) (iterations : ℕ) (hdt : 0 < dt) (hit : 1 ≤ iterations)
    (hanchor : t.positions 0 = t.pos_prev 0) :
    (t.enforce_constraints dt iterations).positions 0 = t.positions 0 ∧
    ∀ j, 1 ≤ j → j ≤ t.N →
      (t.enforce_constraints dt iterations).velocities j =
        (1 / dt) • ((t.enforce_constraints dt iterations).positions j -
          t.pos_prev j) := by
  have hdt' : ¬ dt ≤ 0 := not_le.mpr hdt
  cases iterations with
  | zero => omega
  | succ n =>
    constructor
    · simp [Glide.DynamicTether.enforce_constraints, hdt',
        Glide.constraintIter, Glide.constraintPass, hanchor]
    · intro j hj1 hj2
      simp [Glide.DynamicTether.enforce_constraints, hdt', hj1, hj2]

/-- Witness for C1: the sample tether with `dt = 0.01` and 3 iterations. -/
theorem Glide.tether_constraints_frame_witness :
    (0 : ℝ) < 0.01 ∧ 1 ≤ 3 ∧
    Glide.sampleTether.positions 0 = Glide.sampleTether.pos_prev 0 ∧
    ((Glide.sampleTether.enforce_constraints 0.01 3).positions 0 =
      Glide.sampleTether.positions 0 ∧
    ∀ j, 1 ≤ j → j ≤ Glide.sampleTether.N →
      (Glide.sampleTether.enforce_constraints 0.01 3).velocities j =
        ((1 : ℝ) / 0.01) • ((Glide.sampleTether.enforce_constraints 0.01 3).positions j -
          Glide.sampleTether.pos_prev j)) :=
  ⟨by norm_num, by norm_num, rfl,
    Glide.tether_constraints_frame Glide.sampleTether 0.01 3
      (by norm_num) (by norm_num) rfl⟩

/-- C7: `DynamicTether.get_tension_profile` returns exactly `N` values, the
`i`-th equal to `k · max(0, currentLength − restLength)` for segment `i`;
with nonnegative stiffness every returned tension is nonnegative, so a
compressed segment reports zero rather than a negative tension. -/
theorem Glide.tension_profile_spec (t : Glide.DynamicTether)
    (hk : 0 ≤ t.k) :
    t.get_tension_profile.length = t.N ∧
    (∀ i, i < t.N → t.get_tension_profile.getD i 0 =
      t.k * max 0 (Glide.norm2 (t.positions (i + 1) - t.positions i) -
        t.segment_length)) ∧
    ∀ x ∈ t.get_tension_profile, 0 ≤ x := by
  refine ⟨by simp [Glide.DynamicTether.get_tension_profile], ?_, ?_⟩
  · intro i hi
    simp [Glide.DynamicTether.get_tension_profile, List.getD_eq_getElem?_getD,
      List.getElem?_map, List.getElem?_range, hi]
  · intro x hx
    simp only [Glide.DynamicTether.get_tension_profile, List.mem_map,
      List.mem_range] at hx
    obtain ⟨i, _, rfl⟩ := hx
    exact mul_nonneg hk (le_max_left 0 _)

/-- Witness for C7: the sample tether (its stiffness `k = E·A/ℓ` is
nonnegative), evaluated through `tension_profile_spec`. -/
theorem Glide.tension_profile_spec_witness :
    0 ≤ Glide.sampleTether.k ∧
    (Glide.sampleTether.get_tension_profile.length = Glide.sampleTether.N ∧
    (∀ i, i < Glide.sampleTether.N →
      Glide.sampleTether.get_tension_profile.getD i 0 =
      Glide.sampleTether.k *
        max 0 (Glide.norm2 (Glide.sampleTether.positions (i + 1) -
          Glide.sampleTether.positions i) - Glide.sampleTether.segment_length)) ∧
    ∀ x ∈ Glide.sampleTether.get_tension_profile, 0 ≤ x) := by
  have hk : 0 ≤ Glide.sampleTether.k := by
    simp only [Glide.sampleTether, Glide.DynamicTether.init]
    positivity
  exact ⟨hk, Glide.tension_profile_spec Glide.sampleTether hk⟩

/-- C2, counterexample: the sub-step sanitization of
`GLIDEIntegrator.step` does not reset every non-finite entry to zero: a
positions array holding `+inf` (and no NaN) passes through unchanged,
because the trigger checks `np.isnan` only. -/
theorem Glide.sanitize_nonfinite_counterexample :
    Glide.sanitizeSubstep [Glide.NpVal.pinf] [Glide.NpVal.finite 0] =
      ([Glide.NpVal.pinf], [Glide.NpVal.finite 0]) ∧
    Glide.NpVal.isFinite Glide.NpVal.pinf = false :=
  ⟨rfl, rfl⟩

/-- C2, amended: after the sanitization block at the end of each sub-step,
no NaN entry remains in the position or velocity arrays, and every NaN
entry of the input has been reset to zero in place; when the NaN trigger
fires, infinite entries are replaced in place by `±floatMax` (the largest
finite float), not by zero; when no entry is NaN (even if some are
infinite) both arrays are left completely unchanged. -/
theorem Glide.sanitize_nan_reset (P V : List Glide.NpVal) :
    (∀ x ∈ (Glide.sanitizeSubstep P V).1, x.isnan = false) ∧
    (∀ x ∈ (Glide.sanitizeSubstep P V).2, x.isnan = false) ∧
    (∀ i, P.get? i = some Glide.NpVal.nan →
      (Glide.sanitizeSubstep P V).1.get? i = some (Glide.NpVal.finite 0)) ∧
    (∀ i, V.get? i = some Glide.NpVal.nan →
      (Glide.sanitizeSubstep P V).2.get? i = some (Glide.NpVal.finite 0)) ∧
    (∀ i, (P.any Glide.NpVal.isnan || V.any Glide.NpVal.isnan) = true →
      P.get? i = some Glide.NpVal.pinf →
      (Glide.sanitizeSubstep P V).1.get? i =
        some (Glide.NpVal.finite Glide.floatMax)) ∧
    (∀ i, (P.any Glide.NpVal.isnan || V.any Glide.NpVal.isnan) = true →
      P.get? i = some Glide.NpVal.ninf →
      (Glide.sanitizeSubstep P V).1.get? i =
        some (Glide.NpVal.finite (-Glide.floatMax))) ∧
    (∀ i, (P.any Glide.NpVal.isnan || V.any Glide.NpVal.isnan) = true →
      V.get? i = some Glide.NpVal.pinf →
      (Glide.sanitizeSubstep P V).2.get? i =
        some (Glide.NpVal.finite Glide.floatMax)) ∧
    (∀ i, (P.any Glide.NpVal.isnan || V.any Glide.NpVal.isnan) = true →
      V.get? i = some Glide.NpVal.ninf →
      (Glide.sanitizeSubstep P V).2.get? i =
        some (Glide.NpVal.finite (-Glide.floatMax))) ∧
    ((P.any Glide.NpVal.isnan || V.any Glide.NpVal.isnan) = false →
      Glide.sanitizeSubstep P V = (P, V)) := by
  by_cases hc : (P.any Glide.NpVal.isnan || V.any Glide.NpVal.isnan) = true
  · refine ⟨?_, ?_, ?_, ?_, ?_, ?_, ?_, ?_, ?_⟩
    · intro x hx
      simp only [Glide.sanitizeSubstep, hc, if_true, List.mem_map] at hx
      obtain ⟨y, _, rfl⟩ := hx
      cases y <;> rfl
    · intro x hx
      simp only [Glide.sanitizeSubstep, hc, if_true, List.mem_map] at hx
      obtain ⟨y, _, rfl⟩ := hx
      cases y <;> rfl
    · intro i hi
      have hi' : P[i]? = some Glide.NpVal.nan := by
        simpa [← List.get?_eq_getElem?] using hi
      simp [Glide.sanitizeSubstep, hc, List.get?_eq_getElem?,
        List.getElem?_map, hi', Glide.nanToNum]
    · intro i hi
      have hi' : V[i]? = some Glide.NpVal.nan := by
        simpa [← List.get?_eq_getElem?] using hi
      simp [Glide.sanitizeSubstep, hc, List.get?_eq_getElem?,
        List.getElem?_map, hi', Glide.nanToNum]
    · intro i _ hi
      have hi' : P[i]? = some Glide.NpVal.pinf := by
        simpa [← List.get?_eq_getElem?] using hi
      simp [Glide.sanitizeSubstep, hc, List.get?_eq_getElem?,
        List.getElem?_map, hi', Glide.nanToNum]
    · intro i _ hi
      have hi' : P[i]? = some Glide.NpVal.ninf := by
        simpa [← List.get?_eq_getElem?] using hi
      simp [Glide.sanitizeSubstep, hc, List.get?_eq_getElem?,
        List.getElem?_map, hi', Glide.nanToNum]
    · intro i _ hi
      have hi' : V[i]? = some Glide.NpVal.pinf := by
        simpa [← List.get?_eq_getElem?] using hi
      simp [Glide.sanitizeSubstep, hc, List.get?_eq_getElem?,
        List.getElem?_map, hi', Glide.nanToNum]
    · intro i _ hi
      have hi' : V[i]? = some Glide.NpVal.ninf := by
        simpa [← List.get?_eq_getElem?] using hi
      simp [Glide.sanitizeSubstep, hc, List.get?_eq_getElem?,
        List.getElem?_map, hi', Glide.nanToNum]
    · intro hfalse
      rw [hc] at hfalse
      exact absurd hfalse (by simp)
  · have hc' : (P.any Glide.NpVal.isnan || V.any Glide.NpVal.isnan) = false :=
      Bool.eq_false_iff.mpr hc
    have hres : Glide.sanitizeSubstep P V = (P, V) := by
      simp [Glide.sanitizeSubstep, hc']
    have hP : ∀ x ∈ P, x.isnan = false := by
      intro x hx
      have := (Bool.or_eq_false_iff.mp hc').1
      rw [List.any_eq_false] at this
      simpa using this x hx
    have hV : ∀ x ∈ V, x.isnan = false := by
      intro x hx
      have := (Bool.or_eq_false_iff.mp hc').2
      rw [List.any_eq_false] at this
      simpa using this x hx
    refine ⟨?_, ?_, ?_, ?_, ?_, ?_, ?_, ?_, fun _ => hres⟩
    · intro x hx
      rw [hres] at hx
      exact hP x hx
    · intro x hx
      rw [hres] at hx
      exact hV x hx
    · intro i hi
      exact absurd (hP _ (List.get?_mem hi)) (by simp [Glide.NpVal.isnan])
    · intro i hi
      exact absurd (hV _ (List.get?_mem hi)) (by simp [Glide.NpVal.isnan])
    · intro i htrig _
      exact absurd htrig (by simp [hc'])
    · intro i htrig _
      exact absurd htrig (by simp [hc'])
    · intro i htrig _
      exact absurd htrig (by simp [hc'])
    · intro i htrig _
      exact absurd htrig (by simp [hc'])

/-- Witness for C2's amended theorem: with a NaN in the first slot and
`+inf` in the second slot of the positions array, the NaN is reset to zero
and the infinity is replaced by the largest finite float. -/
theorem Glide.sanitize_nan_reset_witness :
    ([Glide.NpVal.nan, Glide.NpVal.pinf].get? 0 = some Glide.NpVal.nan) ∧
    ([Glide.NpVal.nan, Glide.NpVal.pinf].get? 1 = some Glide.NpVal.pinf) ∧
    (([Glide.NpVal.nan, Glide.NpVal.pinf].any Glide.NpVal.isnan ||
      [Glide.NpVal.finite 1].any Glide.NpVal.isnan) = true) ∧
    (Glide.sanitizeSubstep [Glide.NpVal.nan, Glide.NpVal.pinf]
      [Glide.NpVal.finite 1]).1.get? 0 = some (Glide.NpVal.finite 0) ∧
    (Glide.sanitizeSubstep [Glide.NpVal.nan, Glide.NpVal.pinf]
      [Glide.NpVal.finite 1]).1.get? 1 =
        some (Glide.NpVal.finite Glide.floatMax) :=
  ⟨rfl, rfl, rfl,
    (Glide.sanitize_nan_reset [Glide.NpVal.nan, Glide.NpVal.pinf]
      [Glide.NpVal.finite 1]).2.2.1 0 rfl,
    (Glide.sanitize_nan_reset [Glide.NpVal.nan, Glide.NpVal.pinf]
      [Glide.NpVal.finite 1]).2.2.2.2.1 1 rfl rfl⟩

/-- C3: every `ElectrodynamicTether.update` call in boost mode reports a net
power equal to the resistive loss `I²R` plus the nonnegative contribution
`max(0, F·v)`; in drag mode the net power is the loss plus the nonpositive
contribution `min(0, F·v)`, and it can be negative when the harvested
magnitude exceeds the loss — witnessed by the concrete drag configuration
`edtHarvest`, which nets `-3 W` (loss 1 W, harvest 4 W). -/
theorem Glide.edt_power_mode_contract (e : Glide.ElectrodynamicTether)
    (node payload v : Glide.Vec2) (cmd : ℝ) :
    (e.mode = "boost" →
      (e.update node payload v cmd).P_loss =
        (e.update node payload v cmd).I ^ 2 * e.R_tether ∧
      (e.update node payload v cmd).P_net =
        (e.update node payload v cmd).P_loss +
          max 0 (e.update node payload v cmd).P_orbit ∧
      0 ≤ max 0 (e.update node payload v cmd).P_orbit) ∧
    (e.mode = "drag" →
      (e.update node payload v cmd).P_loss =
        (e.update node payload v cmd).I ^ 2 * e.R_tether ∧
      (e.update node payload v cmd).P_net =
        (e.update node payload v cmd).P_loss +
          min 0 (e.update node payload v cmd).P_orbit ∧
      min 0 (e.update node payload v cmd).P_orbit ≤ 0) ∧
    ((Glide.edtHarvest.update ((0, 0) : Glide.Vec2) ((0, 1) : Glide.Vec2)
      ((1, 0) : Glide.Vec2) 1).P_net < 0 ∧
      Glide.edtHarvest.mode = "drag") := by
  refine ⟨?_, ?_, ?_, rfl⟩
  · intro h
    by_cases hL : Glide.norm2 (payload - node) < 1e-9 <;>
      simp [Glide.ElectrodynamicTether.update, h, hL, le_max_left]
  · intro h
    by_cases hL : Glide.norm2 (payload - node) < 1e-9 <;>
      simp [Glide.ElectrodynamicTether.update, h, hL, min_le_left]
  · have hsub : (((0 : ℝ), (1 : ℝ)) : Glide.Vec2) - ((0 : ℝ), (0 : ℝ)) =
        ((0 : ℝ), (1 : ℝ)) := by
      simp [Prod.ext_iff]
    have h01 : Glide.norm2 (((0 : ℝ), (1 : ℝ)) : Glide.Vec2) = 1 := by
      rw [Glide.norm2]
      norm_num
    have h10 : Glide.norm2 (((1 : ℝ), (0 : ℝ)) : Glide.Vec2) = 1 := by
      rw [Glide.norm2]
      norm_num
    have hclip : Glide.npClip 1 (-1) 1 = 1 := by
      rw [Glide.npClip]
      norm_num
    have h4 : |(4 : ℝ)| = 4 := abs_of_pos (by norm_num)
    simp only [Glide.edtHarvest, Glide.ElectrodynamicTether.update, hsub,
      h01, h10, hclip, h4, abs_one, Glide.dot2]
    norm_num [Prod.smul_def, smul_eq_mul, Glide.dot2,
      show ¬(("drag" : String) = "off") from by decide,
      show ¬(("drag" : String) = "boost") from by decide]

/-- Witness for C3: a boost-mode EDT (the harvest configuration with its
mode switched) instantiates the boost clause. -/
theorem Glide.edt_power_mode_contract_witness :
    ({ Glide.edtHarvest with mode := "boost" } :
      Glide.ElectrodynamicTether).mode = "boost" ∧
    ((({ Glide.edtHarvest with mode := "boost" } :
        Glide.ElectrodynamicTether).update ((0, 0) : Glide.Vec2)
        ((0, 1) : Glide.Vec2) ((1, 0) : Glide.Vec2) 1).P_loss =
      (({ Glide.edtHarvest with mode := "boost" } :
        Glide.ElectrodynamicTether).update ((0, 0) : Glide.Vec2)
        ((0, 1) : Glide.Vec2) ((1, 0) : Glide.Vec2) 1).I ^ 2 *
        ({ Glide.edtHarvest with mode := "boost" } :
          Glide.ElectrodynamicTether).R_tether ∧
      (({ Glide.edtHarvest with mode := "boost" } :
        Glide.ElectrodynamicTether).update ((0, 0) : Glide.Vec2)
        ((0, 1) : Glide.Vec2) ((1, 0) : Glide.Vec2) 1).P_net =
      (({ Glide.edtHarvest with mode := "boost" } :
        Glide.ElectrodynamicTether).update ((0, 0) : Glide.Vec2)
        ((0, 1) : Glide.Vec2) ((1, 0) : Glide.Vec2) 1).P_loss +
        max 0 (({ Glide.edtHarvest with mode := "boost" } :
          Glide.ElectrodynamicTether).update ((0, 0) : Glide.Vec2)
          ((0, 1) : Glide.Vec2) ((1, 0) : Glide.Vec2) 1).P_orbit ∧
      0 ≤ max 0 (({ Glide.edtHarvest with mode := "boost" } :
        Glide.ElectrodynamicTether).update ((0, 0) : Glide.Vec2)
        ((0, 1) : Glide.Vec2) ((1, 0) : Glide.Vec2) 1).P_orbit) :=
  ⟨rfl, (Glide.edt_power_mode_contract
    ({ Glide.edtHarvest with mode := "boost" }) ((0, 0) : Glide.Vec2)
    ((0, 1) : Glide.Vec2) ((1, 0) : Glide.Vec2) 1).1 rfl⟩

/-- C9: for every mode string other than "off" and "boost" (including
strings never listed in the mode set), `ElectrodynamicTether.update` runs
without error and produces exactly the drag-mode results: same current,
force (same sign selection), resistive loss, orbital power, and net power
(`loss + min(0, orbital)`).  The embedding of `update` is a total
function, mirroring the absence of any `raise` path in the method. -/
theorem Glide.edt_unknown_mode_behaves_as_drag
    (e : Glide.ElectrodynamicTether) (node payload v : Glide.Vec2)
    (cmd : ℝ) (hoff : e.mode ≠ "off") (hboost : e.mode ≠ "boost") :
    (e.update node payload v cmd).I =
      ((e.set_mode "drag").update node payload v cmd).I ∧
    (e.update node payload v cmd).F =
      ((e.set_mode "drag").update node payload v cmd).F ∧
    (e.update node payload v cmd).P_loss =
      ((e.set_mode "drag").update node payload v cmd).P_loss ∧
    (e.update node payload v cmd).P_orbit =
      ((e.set_mode "drag").update node payload v cmd).P_orbit ∧
    (e.update node payload v cmd).P_net =
      ((e.set_mode "drag").update node payload v cmd).P_net := by
  have hd : lowerStrip "drag" = "drag" := by decide
  have hdo : ¬ (("drag" : String) = "off") := by decide
  have hdb : ¬ (("drag" : String) = "boost") := by decide
  simp only [Glide.ElectrodynamicTether.update,
    Glide.ElectrodynamicTether.set_mode, hd]
  rw [if_neg hoff, if_neg hdo]
  split_ifs <;> simp_all

/-- Witness for C9: an EDT in unknown mode "banana" nets the same power as
in drag mode on a concrete call. -/
theorem Glide.edt_unknown_mode_behaves_as_drag_witness :
    ("banana" : String) ≠ "off" ∧ ("banana" : String) ≠ "boost" ∧
    (({ Glide.edtHarvest with mode := "banana" } :
        Glide.ElectrodynamicTether).update ((0, 0) : Glide.Vec2)
        ((0, 1) : Glide.Vec2) ((1, 0) : Glide.Vec2) 1).P_net =
      ((({ Glide.edtHarvest with mode := "banana" } :
        Glide.ElectrodynamicTether).set_mode "drag").update
        ((0, 0) : Glide.Vec2) ((0, 1) : Glide.Vec2)
        ((1, 0) : Glide.Vec2) 1).P_net :=
  ⟨by decide, by decide,
    (Glide.edt_unknown_mode_behaves_as_drag _ _ _ _ _ (by decide)
      (by decide)).2.2.2.2⟩

/-- C8: `load_config` raises a `ValueError` for every preset name whose
lowercased, stripped form is not one of the known presets `local_demo`,
`orbital_test`, `engineering`; and constructing an `ElectrodynamicTether`
with a field vector whose length is neither 2 nor 3 raises a
`ValueError`. -/
theorem Glide.config_validation_errors (s : String) (L R I_max : ℝ)
    (B : List ℝ) (m : String)
    (hs : lowerStrip s ∉
      (["local_demo", "orbital_test", "engineering"] : List String))
    (hB2 : B.length ≠ 2) (hB3 : B.length ≠ 3) :
    (∃ err, Glide.load_config s = Except.error err) ∧
    (∃ err, Glide.ElectrodynamicTether.init L B R I_max m =
      Except.error err) := by
  simp only [List.mem_cons, List.mem_singleton, List.not_mem_nil, not_or,
    or_false] at hs
  obtain ⟨h1, h2, h3⟩ := hs
  constructor
  · refine ⟨"Unknown configuration mode: " ++ lowerStrip s, ?_⟩
    simp only [Glide.load_config]
    rw [if_neg h2, if_neg h3, if_neg h1]
  · refine ⟨"B_vec must be length 2 or 3", ?_⟩
    simp only [Glide.ElectrodynamicTether.init]
    rw [if_neg hB2, if_pos hB3]

/-- Witness for C8: the unknown preset "bogus" and a length-1 field vector
both produce configuration errors. -/
theorem Glide.config_validation_errors_witness :
    lowerStrip "bogus" ∉
      (["local_demo", "orbital_test", "engineering"] : List String) ∧
    ([(1 : ℝ)].length ≠ 2) ∧ ([(1 : ℝ)].length ≠ 3) ∧
    (∃ err, Glide.load_config "bogus" = Except.error err) ∧
    (∃ err, Glide.ElectrodynamicTether.init 100 [(1 : ℝ)] 50 2.5 "drag" =
      Except.error err) := by
  have h := Glide.config_validation_errors "bogus" 100 50 2.5 [(1 : ℝ)]
    "drag" (by decide) (by decide) (by decide)
  exact ⟨by decide, by decide, by decide, h.1, h.2⟩

/-- C10: a never-updated `EnergyTracker` summarizes to the empty dict, and
`GLIDEIntegrator.run` on a fresh integrator with `duration < dt` executes
zero steps and returns that empty summary, leaving the state untouched. -/
theorem Glide.short_run_empty_summary (cap lg : ℝ)
    (g : Glide.GLIDEIntegrator) (duration : ℝ)
    (op cp : Option (ℝ → ℝ)) (hfresh : g.energy.time = [])
    (hdt : 0 < g.dt) (hdur : duration < g.dt) :
    (Glide.EnergyTracker.init cap lg).summary = none ∧
    g.run duration op cp = (g, none) := by
  constructor
  · simp [Glide.EnergyTracker.summary, Glide.EnergyTracker.init]
  · have hsteps : ⌊duration / g.dt⌋₊ = 0 :=
      Nat.floor_eq_zero.mpr ((div_lt_one hdt).mpr hdur)
    simp [Glide.GLIDEIntegrator.run, hsteps, Glide.GLIDEIntegrator.runLoop,
      Glide.EnergyTracker.summary, hfresh]

/-- Witness for C10: the sample integrator (`dt = 0.01`, fresh tracker) run
for `0.005 < dt` seconds. -/
theorem Glide.short_run_empty_summary_witness :
    Glide.sampleIntegrator.energy.time = [] ∧
    (0 : ℝ) < Glide.sampleIntegrator.dt ∧
    (0.005 : ℝ) < Glide.sampleIntegrator.dt ∧
    ((Glide.EnergyTracker.init 5e5 1.0).summary = none ∧
      Glide.sampleIntegrator.run 0.005 none none =
        (Glide.sampleIntegrator, none)) := by
  refine ⟨rfl, ?_, ?_, ?_⟩
  · norm_num [Glide.sampleIntegrator]
  · norm_num [Glide.sampleIntegrator]
  · exact Glide.short_run_empty_summary 5e5 1.0 Glide.sampleIntegrator 0.005
      none none rfl (by norm_num [Glide.sampleIntegrator])
      (by norm_num [Glide.sampleIntegrator])
